import Mathlib

/-!
Verification development for the JAT v2 job-application tracker.

The definitions below are a shallow embedding of the repository's core:
the row-level security policies of `supabase_migration_applications.sql`,
the data-access layer (`getApplications`, `getApplicationById`,
`createApplication`, `updateApplication`, `deleteApplication`), the zod
validation schemas, and the HTTP entry points (POST /api/applications,
PATCH /api/applications/[id]) together with the `createApplicationAction`
server action.

The external storage engine (Postgres under PostgREST) is modelled as a
list of rows, with every engine operation independently filtered by the
row-level policies, exactly as the spec describes the collaborator
("each automatically subject to the row-level policy ... regardless of
the filter the caller supplies").  Transient engine failures are modelled
by an oracle `engineErr : Option String` carrying the raw engine message.
-/

namespace JAT

/-- Decidable equality for `Except`, used to evaluate parse results on
concrete inputs. -/
instance {ε α : Type} [DecidableEq ε] [DecidableEq α] : DecidableEq (Except ε α) :=
  fun a b =>
    match a, b with
    | .error x, .error y =>
      if h : x = y then isTrue (by rw [h]) else isFalse (by simp [h])
    | .ok x, .ok y =>
      if h : x = y then isTrue (by rw [h]) else isFalse (by simp [h])
    | .error _, .ok _ => isFalse (by simp)
    | .ok _, .error _ => isFalse (by simp)

/-! ### JavaScript string primitives used by the source -/

/-- Whitespace recognised by the JavaScript `String.prototype.trim`
(common ASCII whitespace suffices for the strings this code handles). -/
def isJsWs (c : Char) : Bool :=
  c == ' ' || c == '\t' || c == '\n' || c == '\r' || c == '\x0b' || c == '\x0c'

/-- Drop trailing characters satisfying `isJsWs` from a character list. -/
def dropTrailingWs : List Char → List Char
  | [] => []
  | a :: l =>
    match dropTrailingWs l with
    | [] => if isJsWs a then [] else [a]
    | b :: m => a :: b :: m

/-- Model of JavaScript `id.trim()`: strip leading and trailing whitespace. -/
def jsTrim (s : String) : String :=
  ⟨dropTrailingWs (s.data.dropWhile isJsWs)⟩

/-- Does `hay` start with `needle`? -/
def charsStartWith : List Char → List Char → Bool
  | [], _ => true
  | _ :: _, [] => false
  | a :: as, b :: bs => a == b && charsStartWith as bs

/-- Does `hay` contain `needle` as a contiguous run? -/
def charsContain (needle : List Char) : List Char → Bool
  | [] => charsStartWith needle []
  | b :: bs => charsStartWith needle (b :: bs) || charsContain needle bs

/-- Model of JavaScript `s.includes(pat)`: substring containment. -/
def strContains (s pat : String) : Bool :=
  charsContain pat.data s.data

/-- Model of JavaScript `s.toLowerCase()` (ASCII range). -/
def jsToLower (s : String) : String :=
  ⟨s.data.map Char.toLower⟩

/-! ### The UUID check of the data-access layer

`const UUID_RE = /^[0-9a-f]{8}-[0-9a-f]{4}-[1-5][0-9a-f]{3}-[89ab][0-9a-f]{3}-[0-9a-f]{12}$/i`
-/

/-- A hexadecimal digit, either case (the regex carries the `i` flag). -/
def isHexChar (c : Char) : Bool :=
  c.isDigit || ('a' ≤ c && c ≤ 'f') || ('A' ≤ c && c ≤ 'F')

/-- Which character the UUID regex admits at 0-based position `i`. -/
def isUuidChar (i : Nat) (c : Char) : Bool :=
  if i == 8 || i == 13 || i == 18 || i == 23 then c == '-'
  else if i == 14 then '1' ≤ c && c ≤ '5'
  else if i == 19 then
    c == '8' || c == '9' || c == 'a' || c == 'b' || c == 'A' || c == 'B'
  else isHexChar c

/-- Model of `UUID_RE.test s`: 36 characters, hyphens at positions
8/13/18/23, version digit 1–5 at position 14, variant 8/9/a/b at
position 19, hex digits elsewhere, case-insensitive. -/
def isUuid (s : String) : Bool :=
  s.length == 36 && s.data.enum.all fun p => isUuidChar p.1 p.2

/-! ### Data model (`src/lib/types`, `supabase_migration_applications.sql`) -/

/-- `application_status` enum of the migration / `ApplicationStatus` type. -/
inductive AppStatus where
  | applied
  | interviewing
  | offer
  | rejected
  | withdrawn
deriving DecidableEq

/-- A row of the `applications` table (the `Application` interface).
Timestamps are modelled as natural numbers; `notes` is nullable. -/
structure Application where
  id : String
  user_id : String
  company_name : String
  position_title : String
  status : AppStatus
  application_date : String
  notes : Option String
  created_at : Nat
  updated_at : Nat
deriving DecidableEq

/-- `DataResult<T>` of the data-access layer:
`{success: true, data}` or `{success: false, error}`. -/
inductive DataResult (α : Type) where
  | ok (data : α)
  | fail (error : String)
deriving DecidableEq

/-- Queries issued to the storage engine, recorded so that theorems can
state that an operation returned before touching storage. -/
inductive StorageQuery where
  | selectAll
  | selectOne (id : String)
  | insertOne (row : Application)
  | updateOne (id : String)
  | deleteOne (id : String)
deriving DecidableEq

/-- Outcome of one data-access operation: its result, the storage state
after the call, and the queries it issued. -/
structure OpOutcome (α : Type) where
  res : DataResult α
  db : List Application
  queries : List StorageQuery
deriving DecidableEq

/-! ### Row-level security policies (`supabase_migration_applications.sql`)

Each policy is the predicate attached to the `applications` table; the
caller's verified identity `uid` stands for `auth.uid()`.
-/

/-- "Users can view their own applications": `USING (auth.uid() = user_id)`. -/
def selectPolicy (uid : String) (r : Application) : Bool :=
  uid == r.user_id

/-- "Users can insert their own applications": `WITH CHECK (auth.uid() = user_id)`. -/
def insertPolicy (uid : String) (r : Application) : Bool :=
  uid == r.user_id

/-- "Users can update their own applications", `USING` half. -/
def updateUsingPolicy (uid : String) (r : Application) : Bool :=
  uid == r.user_id

/-- "Users can update their own applications", `WITH CHECK` half,
evaluated on the candidate updated row. -/
def updateWithCheckPolicy (uid : String) (r : Application) : Bool :=
  uid == r.user_id

/-- "Users can delete their own applications": `USING (auth.uid() = user_id)`. -/
def deletePolicy (uid : String) (r : Application) : Bool :=
  uid == r.user_id

/-! ### Storage engine model

The engine applies the row-level policies independently of whatever
filter the application code supplies, per the spec's description of the
storage collaborator.  The `updated_at` trigger of the migration
(`NEW.updated_at = now()`) is part of the engine's update.
-/

/-- A partial update as built by the conditional spreads of
`updateApplication`: each field is either absent (not part of the
`UPDATE` statement) or set.  `notes` may be set to null. -/
structure UpdatePatch where
  company_name : Option String
  position_title : Option String
  application_date : Option String
  status : Option AppStatus
  notes : Option (Option String)
deriving DecidableEq

/-- Apply a patch to a row; the `updated_at` trigger refreshes the
timestamp.  `id`, `user_id` and `created_at` are not part of the
statement and keep their values. -/
def applyPatch (p : UpdatePatch) (now : Nat) (r : Application) : Application :=
  { r with
    company_name := p.company_name.getD r.company_name
    position_title := p.position_title.getD r.position_title
    application_date := p.application_date.getD r.application_date
    status := p.status.getD r.status
    notes := p.notes.getD r.notes
    updated_at := now }

/-- Filtered `SELECT`: rows matching the caller's filter, further
restricted by the SELECT policy regardless of that filter. -/
def engineSelect (uid : String) (db : List Application)
    (f : Application → Bool) : List Application :=
  db.filter fun r => selectPolicy uid r && f r

/-- `INSERT ... RETURNING`: accepted only if the INSERT policy admits
the new row; otherwise the engine reports a row-level security error. -/
def engineInsert (uid : String) (db : List Application) (row : Application) :
    Except String (Application × List Application) :=
  if insertPolicy uid row then .ok (row, db ++ [row])
  else .error "new row violates row-level security policy for table applications"

/-- `UPDATE ... WHERE id = idStr RETURNING`: a row is updated when it
matches the filter, the `USING` policy admits it, and the `WITH CHECK`
policy admits the updated row.  Returns the first updated row (the
`.single()` of the source) and the new table state. -/
def engineUpdateReturning (uid : String) (db : List Application)
    (idStr : String) (p : UpdatePatch) (now : Nat) :
    Option Application × List Application :=
  let hit := fun r =>
    r.id == idStr && updateUsingPolicy uid r
      && updateWithCheckPolicy uid (applyPatch p now r)
  (((db.filter hit).map (applyPatch p now)).head?,
    db.map fun r => if hit r then applyPatch p now r else r)

/-- `DELETE ... WHERE id = idStr RETURNING`: removes the rows matching
the filter that the DELETE policy admits; returns them. -/
def engineDeleteReturning (uid : String) (db : List Application)
    (idStr : String) : List Application × List Application :=
  let hit := fun r => r.id == idStr && deletePolicy uid r
  (db.filter hit, db.filter fun r => ! hit r)

/-- `ORDER BY created_at DESC` of `getApplications`, as an insertion
sort on the modelled timestamps. -/
def insertDesc (a : Application) : List Application → List Application
  | [] => [a]
  | b :: l => if b.created_at ≤ a.created_at then a :: b :: l else b :: insertDesc a l

/-- Sort a row list by `created_at` descending (newest first). -/
def sortByCreatedAtDesc : List Application → List Application
  | [] => []
  | a :: l => insertDesc a (sortByCreatedAtDesc l)

/-! ### Data-access layer

All five functions follow the current full data-access module (the
variant exporting all five operations that the routes and the server
action import): `getApplications`, `createApplication`,
`updateApplication` and `deleteApplication` map engine errors to fixed
keyword-selected user-friendly messages, while `getApplicationById`
relays the raw engine message.

The authenticated session is `auth : Option String`: `none` covers both
`authError` and a missing `user` from `supabase.auth.getUser()`.  A
transient engine failure is the oracle `engineErr : Option String`
carrying the raw engine `error.message`.
-/

/-- Error mapping of `createApplication`'s engine-error branch. -/
def friendlyCreateError (msg : String) : String :=
  let m := jsToLower msg
  if strContains m "network" || strContains m "fetch" then
    "Network error. Please check your internet connection."
  else if strContains m "timeout" then "Request timed out. Please try again."
  else if strContains m "violates" then "Invalid data. Please check your input."
  else "Unable to create application. Please try again."

/-- Error mapping of `updateApplication`'s engine-error branch. -/
def friendlyUpdateError (msg : String) : String :=
  let m := jsToLower msg
  if strContains m "network" || strContains m "fetch" then
    "Network error. Please check your internet connection."
  else if strContains m "timeout" then "Request timed out. Please try again."
  else if strContains m "violates" then "Invalid data. Please check your input."
  else "Unable to update application. Please try again."

/-- Error mapping of `deleteApplication`'s engine-error branch (it has
no `violates` case). -/
def friendlyDeleteError (msg : String) : String :=
  let m := jsToLower msg
  if strContains m "network" || strContains m "fetch" then
    "Network error. Please check your internet connection."
  else if strContains m "timeout" then "Request timed out. Please try again."
  else "Unable to delete application. Please try again."

/-- Error mapping of `getApplications`' engine-error branch (no
`violates` case; generic message `Unable to load applications`). -/
def friendlyListError (msg : String) : String :=
  let m := jsToLower msg
  if strContains m "network" || strContains m "fetch" then
    "Network error. Please check your internet connection."
  else if strContains m "timeout" then "Request timed out. Please try again."
  else "Unable to load applications. Please try again."

/-- `getApplications()`: auth check, then `select * order by created_at
desc`; an engine error is mapped to a fixed keyword-selected
user-friendly message. -/
def getApplications (auth : Option String) (engineErr : Option String)
    (db : List Application) : OpOutcome (List Application) :=
  match auth with
  | none => ⟨.fail "User not authenticated", db, []⟩
  | some uid =>
    match engineErr with
    | some msg =>
      ⟨.fail (friendlyListError msg), db, [.selectAll]⟩
    | none =>
      ⟨.ok (sortByCreatedAtDesc (engineSelect uid db fun _ => true)), db,
        [.selectAll]⟩

/-- `getApplicationById(id)`: auth check, trim and UUID-validate the id,
then `select * where id = … maybeSingle()`; a missing or cross-owner row
yields `{success: true, data: null}`; an engine error is relayed as
`Failed to fetch application: <raw message>`. -/
def getApplicationById (auth : Option String) (engineErr : Option String)
    (id : String) (db : List Application) : OpOutcome (Option Application) :=
  match auth with
  | none => ⟨.fail "User not authenticated", db, []⟩
  | some uid =>
    let applicationId := jsTrim id
    if applicationId == "" || ! isUuid applicationId then
      ⟨.fail "Invalid application ID", db, []⟩
    else
      match engineErr with
      | some msg =>
        ⟨.fail ("Failed to fetch application: " ++ msg), db,
          [.selectOne applicationId]⟩
      | none =>
        ⟨.ok (engineSelect uid db fun r => r.id == applicationId).head?, db,
          [.selectOne applicationId]⟩

/-- Input accepted by `createApplication` (its parameter type): no
`user_id`, no `id`, no timestamps.  `notes` is optional/nullable; the
insert uses `data.notes ?? null`, so `none` stands for both. -/
structure CreateInput where
  company_name : String
  position_title : String
  application_date : String
  status : AppStatus
  notes : Option String
deriving DecidableEq

/-- `createApplication(data)`: auth check, then insert with
`user_id: user.id` taken from the session — never from the input —
and `id`/timestamps generated by the engine (`genId`, `now`). -/
def createApplication (auth : Option String) (engineErr : Option String)
    (genId : String) (now : Nat) (input : CreateInput)
    (db : List Application) : OpOutcome Application :=
  match auth with
  | none => ⟨.fail "User not authenticated", db, []⟩
  | some uid =>
    let row : Application :=
      { id := genId
        user_id := uid
        company_name := input.company_name
        position_title := input.position_title
        status := input.status
        application_date := input.application_date
        notes := input.notes
        created_at := now
        updated_at := now }
    match engineErr with
    | some msg => ⟨.fail (friendlyCreateError msg), db, [.insertOne row]⟩
    | none =>
      match engineInsert uid db row with
      | .error msg => ⟨.fail (friendlyCreateError msg), db, [.insertOne row]⟩
      | .ok (r, db2) => ⟨.ok r, db2, [.insertOne row]⟩

/-- `updateApplication(id, data)`: auth check, trim and UUID-validate
the id, then `update … where id = … select().single()`.

When zero rows are visible (nonexistent id, or a row owned by another
identity), supabase-js's `.single()` does not return null data: it
returns the PGRST116 engine error `JSON object requested, multiple (or
no) rows returned`, which the source's `if (error)` keyword mapping
turns into the generic `Unable to update application. Please try
again.` — so the source's subsequent `if (!updatedApplication)` branch
(`Application not found or access denied`) is unreachable.  (Multiple
matched rows cannot occur: `id` is the primary key.) -/
def updateApplication (auth : Option String) (engineErr : Option String)
    (now : Nat) (id : String) (p : UpdatePatch)
    (db : List Application) : OpOutcome Application :=
  match auth with
  | none => ⟨.fail "User not authenticated", db, []⟩
  | some uid =>
    let applicationId := jsTrim id
    if applicationId == "" || ! isUuid applicationId then
      ⟨.fail "Invalid application ID", db, []⟩
    else
      match engineErr with
      | some msg =>
        ⟨.fail (friendlyUpdateError msg), db, [.updateOne applicationId]⟩
      | none =>
        match engineUpdateReturning uid db applicationId p now with
        | (none, db2) =>
          ⟨.fail (friendlyUpdateError
              "JSON object requested, multiple (or no) rows returned"), db2,
            [.updateOne applicationId]⟩
        | (some r, db2) => ⟨.ok r, db2, [.updateOne applicationId]⟩

/-- `deleteApplication(id)`: auth check, trim and UUID-validate the id,
then `delete … where id = … select()`; zero deleted rows yields
`Application not found or access denied: <id>`. -/
def deleteApplication (auth : Option String) (engineErr : Option String)
    (id : String) (db : List Application) : OpOutcome String :=
  match auth with
  | none => ⟨.fail "User not authenticated", db, []⟩
  | some uid =>
    let applicationId := jsTrim id
    if applicationId == "" || ! isUuid applicationId then
      ⟨.fail "Invalid application ID", db, []⟩
    else
      match engineErr with
      | some msg =>
        ⟨.fail (friendlyDeleteError msg), db, [.deleteOne applicationId]⟩
      | none =>
        match engineDeleteReturning uid db applicationId with
        | (deleted, db2) =>
          if deleted.isEmpty then
            ⟨.fail ("Application not found or access denied: " ++ applicationId),
              db2, [.deleteOne applicationId]⟩
          else ⟨.ok applicationId, db2, [.deleteOne applicationId]⟩

/-! ### Validation schemas (`src/lib/validations/application.ts`)

`z.object` runs in strip mode: keys outside the schema are removed, not
rejected.  A raw JSON body is modelled as the five recognised keys, each
absent (`none` = the key is missing, i.e. `undefined`) or present with a
string value, plus the names of any other keys present.
-/

/-- `applicationStatuses` membership: parse a raw status string. -/
def AppStatus.ofString (s : String) : Option AppStatus :=
  if s == "applied" then some .applied
  else if s == "interviewing" then some .interviewing
  else if s == "offer" then some .offer
  else if s == "rejected" then some .rejected
  else if s == "withdrawn" then some .withdrawn
  else none

/-- `z.string().min(1).max(maxLen).trim()` on a required field: the
length checks run on the raw value, then zod's `.trim()` transforms. -/
def zodRequiredText (maxLen : Nat) (v : Option String) (emptyMsg longMsg : String) :
    Except String String :=
  match v with
  | none => .error "Required"
  | some s =>
    if s.length < 1 then .error emptyMsg
    else if s.length > maxLen then .error longMsg
    else .ok (jsTrim s)

/-- The same chain with `.optional()`: an absent key passes through. -/
def zodOptionalText (maxLen : Nat) (v : Option String) (emptyMsg longMsg : String) :
    Except String (Option String) :=
  match v with
  | none => .ok none
  | some s =>
    if s.length < 1 then .error emptyMsg
    else if s.length > maxLen then .error longMsg
    else .ok (some (jsTrim s))

/-- The `^\d{4}-\d{2}-\d{2}$` regex of the date fields. -/
def isYmdShape (s : String) : Bool :=
  s.length == 10 && s.data.enum.all fun p =>
    if p.1 == 4 || p.1 == 7 then p.2 == '-' else p.2.isDigit

/-- Days of a month in the proleptic Gregorian calendar used by the
ECMAScript Date parser. -/
def daysInMonth (year month : Nat) : Nat :=
  if month == 2 then
    if year % 4 == 0 && (year % 100 != 0 || year % 400 == 0) then 29 else 28
  else if month == 4 || month == 6 || month == 9 || month == 11 then 30
  else 31

/-- Models the host runtime's `new Date(s)` validity refinement on a
string already matching the date shape: ECMAScript ISO date parsing
yields an invalid Date when the month is outside 1–12 or the day is
outside the month's calendar range. -/
def jsDateValid (s : String) : Bool :=
  match s.data with
  | [y1, y2, y3, y4, _, m1, m2, _, d1, d2] =>
    let year := (y1.toNat - 48) * 1000 + (y2.toNat - 48) * 100
      + (y3.toNat - 48) * 10 + (y4.toNat - 48)
    let month := (m1.toNat - 48) * 10 + (m2.toNat - 48)
    let day := (d1.toNat - 48) * 10 + (d2.toNat - 48)
    1 ≤ month && month ≤ 12 && 1 ≤ day && day ≤ daysInMonth year month
  | _ => false

/-- The `application_date` chain: regex, then the Date refinement. -/
def zodDate (v : Option String) : Except String String :=
  match v with
  | none => .error "Required"
  | some s =>
    if ! isYmdShape s then .error "Date must be in YYYY-MM-DD format"
    else if ! jsDateValid s then .error "Invalid date"
    else .ok s

/-- Optional variant of the date chain (update schema). -/
def zodDateOpt (v : Option String) : Except String (Option String) :=
  match v with
  | none => .ok none
  | some s =>
    if ! isYmdShape s then .error "Date must be in YYYY-MM-DD format"
    else if ! jsDateValid s then .error "Invalid date"
    else .ok (some s)

/-- The `status` enum check. -/
def zodStatus (v : Option String) : Except String AppStatus :=
  match v with
  | none => .error "Required"
  | some s =>
    match AppStatus.ofString s with
    | none => .error "Invalid status value"
    | some st => .ok st

/-- Optional variant of the status check (update schema). -/
def zodStatusOpt (v : Option String) : Except String (Option AppStatus) :=
  match v with
  | none => .ok none
  | some s =>
    match AppStatus.ofString s with
    | none => .error "Invalid status value"
    | some st => .ok (some st)

/-- The `notes` chain `z.string().max(2000).optional().transform(val =>
val && val.trim() === '' ? null : val)`.  The JavaScript `&&` evaluates
the truthiness of `val`, so the empty string — being falsy — skips the
normalization and passes through unchanged; only a non-empty
whitespace-only string becomes null.  Result: `none` = the key stays
absent, `some none` = null, `some (some s)` = the string `s`. -/
def zodNotes (v : Option String) : Except String (Option (Option String)) :=
  match v with
  | none => .ok none
  | some s =>
    if s.length > 2000 then .error "Notes must be less than 2000 characters"
    else if s != "" && jsTrim s == "" then .ok (some none)
    else .ok (some (some s))

/-- A raw JSON body for the create endpoint: recognised keys plus the
names of any unrecognised keys the caller included. -/
structure RawCreateBody where
  company_name : Option String
  position_title : Option String
  application_date : Option String
  status : Option String
  notes : Option String
  extra : List String
deriving DecidableEq

/-- Output of `createApplicationSchema.parse`. -/
structure ValidatedCreate where
  company_name : String
  position_title : String
  application_date : String
  status : AppStatus
  notes : Option (Option String)
deriving DecidableEq

/-- `createApplicationSchema.parse(body)`: validates the five recognised
fields and strips everything in `extra`. -/
def createZodParse (b : RawCreateBody) : Except String ValidatedCreate := do
  let cn ← zodRequiredText 200 b.company_name
    "Company name is required" "Company name must be less than 200 characters"
  let pt ← zodRequiredText 200 b.position_title
    "Position title is required" "Position title must be less than 200 characters"
  let ad ← zodDate b.application_date
  let st ← zodStatus b.status
  let nt ← zodNotes b.notes
  return ⟨cn, pt, ad, st, nt⟩

/-- A raw JSON body for the update endpoint. -/
structure RawUpdateBody where
  company_name : Option String
  position_title : Option String
  application_date : Option String
  status : Option String
  notes : Option String
  extra : List String
deriving DecidableEq

/-- Number of keys of the raw body, as seen by `Object.keys(rawBody)`. -/
def RawUpdateBody.keyCount (b : RawUpdateBody) : Nat :=
  (if b.company_name.isSome then 1 else 0)
    + (if b.position_title.isSome then 1 else 0)
    + (if b.application_date.isSome then 1 else 0)
    + (if b.status.isSome then 1 else 0)
    + (if b.notes.isSome then 1 else 0)
    + b.extra.length

/-- Output of `updateApplicationSchema.parse`. -/
structure ValidatedUpdate where
  company_name : Option String
  position_title : Option String
  application_date : Option String
  status : Option AppStatus
  notes : Option (Option String)
deriving DecidableEq

/-- `updateApplicationSchema.parse(body)`: every field optional, unknown
keys stripped. -/
def updateZodParse (b : RawUpdateBody) : Except String ValidatedUpdate := do
  let cn ← zodOptionalText 200 b.company_name
    "Company name cannot be empty" "Company name must be less than 200 characters"
  let pt ← zodOptionalText 200 b.position_title
    "Position title cannot be empty" "Position title must be less than 200 characters"
  let ad ← zodDateOpt b.application_date
  let st ← zodStatusOpt b.status
  let nt ← zodNotes b.notes
  return ⟨cn, pt, ad, st, nt⟩

/-! ### HTTP entry points and the server action

The route handlers resolve the session themselves and the data-access
layer re-resolves it; both act on the same request, so the model passes
one `auth` value to both.
-/

/-- A JSON response of a route handler: its HTTP status and either the
data payload or the error message. -/
inductive ApiResponse (α : Type) where
  | ok (httpStatus : Nat) (data : α)
  | err (httpStatus : Nat) (msg : String)
deriving DecidableEq

/-- Outcome of one web entry point: response, storage state after the
call, queries issued. -/
structure WebOutcome (ρ : Type) where
  resp : ρ
  db : List Application
  queries : List StorageQuery
deriving DecidableEq

/-- The conditional spread of the PATCH handler that rebuilds the
data-access input from the validated fields — the identity on each
recognised field, with everything unrecognised already stripped. -/
def patchOfValidated (v : ValidatedUpdate) : UpdatePatch :=
  { company_name := v.company_name
    position_title := v.position_title
    application_date := v.application_date
    status := v.status
    notes := v.notes }

/-- `POST /api/applications`: auth, parse body, create; a failed create
is relayed with status 500; success returns 201. -/
def routePOST (auth : Option String) (engineErr : Option String)
    (genId : String) (now : Nat) (body : RawCreateBody)
    (db : List Application) : WebOutcome (ApiResponse Application) :=
  match auth with
  | none => ⟨.err 401 "Unauthorized", db, []⟩
  | some _ =>
    match createZodParse body with
    | .error _ => ⟨.err 400 "Validation failed", db, []⟩
    | .ok v =>
      let out := createApplication auth engineErr genId now
        { company_name := v.company_name
          position_title := v.position_title
          application_date := v.application_date
          status := v.status
          notes := v.notes.join } db
      match out.res with
      | .fail e => ⟨.err 500 e, out.db, out.queries⟩
      | .ok r => ⟨.ok 201 r, out.db, out.queries⟩

/-- `PATCH /api/applications/[id]`: auth; reject an empty id; reject a
body with no keys before validation; validate; update; map a not-found /
access-denied result to 404, any other failure to 500. -/
def routePATCH (auth : Option String) (engineErr : Option String)
    (now : Nat) (id : String) (body : RawUpdateBody)
    (db : List Application) : WebOutcome (ApiResponse Application) :=
  match auth with
  | none => ⟨.err 401 "Unauthorized", db, []⟩
  | some _ =>
    if id == "" then ⟨.err 400 "Application ID is required", db, []⟩
    else if body.keyCount == 0 then ⟨.err 400 "No fields to update", db, []⟩
    else
      match updateZodParse body with
      | .error _ => ⟨.err 400 "Validation failed", db, []⟩
      | .ok v =>
        let out := updateApplication auth engineErr now id (patchOfValidated v) db
        match out.res with
        | .fail e =>
          if strContains e "not found" || strContains e "access denied" then
            ⟨.err 404 "Application not found", out.db, out.queries⟩
          else ⟨.err 500 e, out.db, out.queries⟩
        | .ok r => ⟨.ok 200 r, out.db, out.queries⟩

/-- The five values `createApplicationAction` reads from the submitted
form via `formData.get(...)`; `none` models a missing entry, which
`FormData.get` reports as null. -/
structure FormDataPayload where
  company_name : Option String
  position_title : Option String
  application_date : Option String
  status : Option String
  notes : Option String
deriving DecidableEq

/-- Result of the server action: an error object, or the redirect to
the dashboard issued after a successful create. -/
inductive ActionResult where
  | failure (error : String)
  | redirectDashboard (created : Application)
deriving DecidableEq

/-- `createApplicationSchema.safeParse(rawData)` as invoked by the
action: `FormData.get` yields null — not undefined — for a missing key,
and zod rejects null even on `.optional()` fields, so a missing `notes`
entry fails validation here. -/
def createZodParseForm (f : FormDataPayload) : Except String ValidatedCreate := do
  let cn ← zodRequiredText 200 f.company_name
    "Company name is required" "Company name must be less than 200 characters"
  let pt ← zodRequiredText 200 f.position_title
    "Position title is required" "Position title must be less than 200 characters"
  let ad ← zodDate f.application_date
  let st ← zodStatus f.status
  let nt ← match f.notes with
    | none => Except.error "Expected string, received null"
    | some s => zodNotes (some s)
  return ⟨cn, pt, ad, st, nt⟩

/-- `createApplicationAction(formData)`: auth, validate the extracted
fields, create, redirect to the dashboard on success. -/
def createApplicationAction (auth : Option String) (engineErr : Option String)
    (genId : String) (now : Nat) (form : FormDataPayload)
    (db : List Application) : WebOutcome ActionResult :=
  match auth with
  | none => ⟨.failure "User not authenticated", db, []⟩
  | some _ =>
    match createZodParseForm form with
    | .error e => ⟨.failure e, db, []⟩
    | .ok v =>
      let out := createApplication auth engineErr genId now
        { company_name := v.company_name
          position_title := v.position_title
          application_date := v.application_date
          status := v.status
          notes := v.notes.join } db
      match out.res with
      | .fail e => ⟨.failure e, out.db, out.queries⟩
      | .ok r => ⟨.redirectDashboard r, out.db, out.queries⟩

/-! ### Helper lemmas -/

theorem dropTrailingWs_cons_cons (a : Char) {l : List Char} {b : Char}
    {m : List Char} (h : dropTrailingWs l = b :: m) :
    dropTrailingWs (a :: l) = a :: b :: m := by
  simp [dropTrailingWs, h]

theorem dropTrailingWs_idem (l : List Char) :
    dropTrailingWs (dropTrailingWs l) = dropTrailingWs l := by
  induction l with
  | nil => rfl
  | cons a l ih =>
    cases h : dropTrailingWs l with
    | nil =>
      by_cases hw : isJsWs a
      · simp [dropTrailingWs, h, hw]
      · simp [dropTrailingWs, h, hw]
    | cons b m =>
      have h2 : dropTrailingWs (b :: m) = b :: m := h ▸ ih
      rw [dropTrailingWs_cons_cons a h]
      exact dropTrailingWs_cons_cons a h2

theorem dropWhile_head_not {α : Type} {p : α → Bool} {l : List α} {a : α}
    {m : List α} (h : l.dropWhile p = a :: m) : p a = false := by
  induction l with
  | nil => simp [List.dropWhile] at h
  | cons b l ih =>
    by_cases hb : p b
    · simp only [List.dropWhile, hb] at h
      exact ih h
    · simp only [List.dropWhile, Bool.not_eq_true] at hb
      rw [List.dropWhile_cons_of_neg (by simp [hb])] at h
      cases h
      exact hb

theorem dropTrailingWs_cons_shape (a : Char) (l : List Char) :
    dropTrailingWs (a :: l) = [] ∨ ∃ m, dropTrailingWs (a :: l) = a :: m := by
  cases h : dropTrailingWs l with
  | nil =>
    by_cases hw : isJsWs a
    · left
      simp [dropTrailingWs, h, hw]
    · right
      exact ⟨[], by simp [dropTrailingWs, h, hw]⟩
  | cons b m =>
    right
    exact ⟨b :: m, by simp [dropTrailingWs, h]⟩

theorem dropWhile_of_dropTrailing_dropWhile (l : List Char) :
    (dropTrailingWs (l.dropWhile isJsWs)).dropWhile isJsWs
      = dropTrailingWs (l.dropWhile isJsWs) := by
  cases h : l.dropWhile isJsWs with
  | nil => simp [dropTrailingWs]
  | cons a m =>
    have ha : isJsWs a = false := dropWhile_head_not h
    rcases dropTrailingWs_cons_shape a m with h2 | ⟨m2, h2⟩
    · simp [h2]
    · rw [h2, List.dropWhile_cons_of_neg (by simp [ha])]

/-- `id.trim()` is idempotent, so an id already trimmed is unchanged. -/
theorem jsTrim_idem (s : String) : jsTrim (jsTrim s) = jsTrim s := by
  show (⟨dropTrailingWs
      ((dropTrailingWs (s.data.dropWhile isJsWs)).dropWhile isJsWs)⟩ : String)
    = ⟨dropTrailingWs (s.data.dropWhile isJsWs)⟩
  rw [dropWhile_of_dropTrailing_dropWhile, dropTrailingWs_idem]

theorem mem_insertDesc {x a : Application} {l : List Application} :
    x ∈ insertDesc a l ↔ x = a ∨ x ∈ l := by
  induction l with
  | nil => simp [insertDesc]
  | cons b l ih =>
    by_cases h : b.created_at ≤ a.created_at
    · simp [insertDesc, h]
    · simp [insertDesc, h, ih]
      tauto

theorem mem_sortByCreatedAtDesc {x : Application} {l : List Application} :
    x ∈ sortByCreatedAtDesc l ↔ x ∈ l := by
  induction l with
  | nil => simp [sortByCreatedAtDesc]
  | cons a l ih => simp [sortByCreatedAtDesc, mem_insertDesc, ih]

/-! ### Claims -/

/-- C4: every record-store operation invoked with no resolvable
server-side identity returns the uniform failure
`{success: false, error: 'User not authenticated'}`, issues no storage
query, and leaves the storage state unchanged. -/
theorem unauthenticated_uniform_failure
    (engineErr : Option String) (db : List Application) (id genId : String)
    (now : Nat) (input : CreateInput) (p : UpdatePatch) :
    getApplications none engineErr db
        = ⟨.fail "User not authenticated", db, []⟩
    ∧ getApplicationById none engineErr id db
        = ⟨.fail "User not authenticated", db, []⟩
    ∧ createApplication none engineErr genId now input db
        = ⟨.fail "User not authenticated", db, []⟩
    ∧ updateApplication none engineErr now id p db
        = ⟨.fail "User not authenticated", db, []⟩
    ∧ deleteApplication none engineErr id db
        = ⟨.fail "User not authenticated", db, []⟩ :=
  ⟨rfl, rfl, rfl, rfl, rfl⟩

/-- C10: for `getApplicationById`, `updateApplication` and
`deleteApplication`, an id whose trimmed form fails the UUID pattern is
rejected with `Invalid application ID` before any storage query, with
the storage state unchanged; and every id behaves exactly like its
trimmed form. -/
theorem invalid_id_rejected_before_storage
    (uid : String) (engineErr : Option String) (db : List Application)
    (id : String) (now : Nat) (p : UpdatePatch) :
    (isUuid (jsTrim id) = false →
      getApplicationById (some uid) engineErr id db
          = ⟨.fail "Invalid application ID", db, []⟩
      ∧ updateApplication (some uid) engineErr now id p db
          = ⟨.fail "Invalid application ID", db, []⟩
      ∧ deleteApplication (some uid) engineErr id db
          = ⟨.fail "Invalid application ID", db, []⟩)
    ∧ getApplicationById (some uid) engineErr id db
        = getApplicationById (some uid) engineErr (jsTrim id) db
    ∧ updateApplication (some uid) engineErr now id p db
        = updateApplication (some uid) engineErr now (jsTrim id) p db
    ∧ deleteApplication (some uid) engineErr id db
        = deleteApplication (some uid) engineErr (jsTrim id) db := by
  constructor
  · intro h
    refine ⟨?_, ?_, ?_⟩ <;>
      simp [getApplicationById, updateApplication, deleteApplication, h]
  · refine ⟨?_, ?_, ?_⟩ <;>
      simp only [getApplicationById, updateApplication, deleteApplication,
        jsTrim_idem]

/-- Every row present after a `createApplication` call was already
present before, or carries the session identity as its owner. -/
theorem create_db_sound (uid genId : String) (now : Nat)
    (engineErr : Option String) (input : CreateInput) (db : List Application) :
    ∀ r ∈ (createApplication (some uid) engineErr genId now input db).db,
      r ∈ db ∨ r.user_id = uid := by
  intro r hr
  cases engineErr with
  | some msg =>
    simp only [createApplication] at hr
    exact Or.inl hr
  | none =>
    simp [createApplication, engineInsert, insertPolicy] at hr
    rcases hr with h | h
    · exact Or.inl h
    · right
      subst h
      rfl

/-- A record returned by a successful `createApplication` carries the
session identity as its owner. -/
theorem create_res_owner (uid genId : String) (now : Nat)
    (engineErr : Option String) (input : CreateInput) (db : List Application) :
    ∀ r, (createApplication (some uid) engineErr genId now input db).res
      = .ok r → r.user_id = uid := by
  intro r h
  cases engineErr with
  | some msg => simp [createApplication] at h
  | none =>
    simp [createApplication, engineInsert, insertPolicy] at h
    subst h
    rfl

/-- C1: for every authenticated create — directly, via
POST /api/applications, or via `createApplicationAction` — the persisted
record's `user_id` equals the identity resolved from the server-side
session, for every input payload the caller can supply; the accepted
input shape (`CreateInput`, `RawCreateBody`, `FormDataPayload`) carries
no owner field that could influence the stored owner. -/
theorem createApplication_owner_from_session
    (uid genId : String) (now : Nat) (engineErr : Option String)
    (input : CreateInput) (db : List Application)
    (body : RawCreateBody) (form : FormDataPayload) :
    (∀ r ∈ (createApplication (some uid) engineErr genId now input db).db,
        r ∈ db ∨ r.user_id = uid)
    ∧ (∀ r, (createApplication (some uid) engineErr genId now input db).res
        = .ok r → r.user_id = uid)
    ∧ (∀ r ∈ (routePOST (some uid) engineErr genId now body db).db,
        r ∈ db ∨ r.user_id = uid)
    ∧ (∀ r, (routePOST (some uid) engineErr genId now body db).resp
        = .ok 201 r → r.user_id = uid)
    ∧ (∀ r ∈ (createApplicationAction (some uid) engineErr genId now form db).db,
        r ∈ db ∨ r.user_id = uid)
    ∧ (∀ r, (createApplicationAction (some uid) engineErr genId now form db).resp
        = .redirectDashboard r → r.user_id = uid) := by
  refine ⟨create_db_sound uid genId now engineErr input db,
    create_res_owner uid genId now engineErr input db, ?_, ?_, ?_, ?_⟩
  · intro r hr
    cases hp : createZodParse body with
    | error e =>
      simp only [routePOST, hp] at hr
      exact Or.inl hr
    | ok v =>
      simp only [routePOST, hp] at hr
      cases hres : (createApplication (some uid) engineErr genId now
          ⟨v.company_name, v.position_title, v.application_date, v.status,
            v.notes.join⟩ db).res with
      | ok d =>
        simp only [hres] at hr
        exact create_db_sound uid genId now engineErr _ db r hr
      | fail e =>
        simp only [hres] at hr
        exact create_db_sound uid genId now engineErr _ db r hr
  · intro r h
    cases hp : createZodParse body with
    | error e =>
      simp only [routePOST, hp] at h
      cases h
    | ok v =>
      simp only [routePOST, hp] at h
      cases hres : (createApplication (some uid) engineErr genId now
          ⟨v.company_name, v.position_title, v.application_date, v.status,
            v.notes.join⟩ db).res with
      | ok d =>
        simp only [hres] at h
        cases h
        exact create_res_owner uid genId now engineErr _ db _ hres
      | fail e =>
        simp only [hres] at h
        cases h
  · intro r hr
    cases hp : createZodParseForm form with
    | error e =>
      simp only [createApplicationAction, hp] at hr
      exact Or.inl hr
    | ok v =>
      simp only [createApplicationAction, hp] at hr
      cases hres : (createApplication (some uid) engineErr genId now
          ⟨v.company_name, v.position_title, v.application_date, v.status,
            v.notes.join⟩ db).res with
      | ok d =>
        simp only [hres] at hr
        exact create_db_sound uid genId now engineErr _ db r hr
      | fail e =>
        simp only [hres] at hr
        exact create_db_sound uid genId now engineErr _ db r hr
  · intro r h
    cases hp : createZodParseForm form with
    | error e =>
      simp only [createApplicationAction, hp] at h
      cases h
    | ok v =>
      simp only [createApplicationAction, hp] at h
      cases hres : (createApplication (some uid) engineErr genId now
          ⟨v.company_name, v.position_title, v.application_date, v.status,
            v.notes.join⟩ db).res with
      | ok d =>
        simp only [hres] at h
        cases h
        exact create_res_owner uid genId now engineErr _ db _ hres
      | fail e =>
        simp only [hres] at h
        cases h

/-- Closed witness for C1: a concrete create, with the caller even
attempting to smuggle a `user_id` key into the POST body, persists the
session identity as the owner. -/
theorem createApplication_owner_from_session_witness :
    (routePOST (some "alice") none "123e4567-e89b-12d3-a456-426614174000" 3
        ⟨some "Acme", some "Engineer", some "2026-01-10", some "applied", none,
          ["user_id"]⟩ []).resp
      = .ok 201 ⟨"123e4567-e89b-12d3-a456-426614174000", "alice", "Acme",
          "Engineer", .applied, "2026-01-10", none, 3, 3⟩
    ∧ (⟨"123e4567-e89b-12d3-a456-426614174000", "alice", "Acme", "Engineer",
        .applied, "2026-01-10", none, 3, 3⟩ : Application).user_id = "alice" :=
  ⟨by decide,
    (createApplication_owner_from_session "alice"
        "123e4567-e89b-12d3-a456-426614174000" 3 none
        ⟨"Acme", "Engineer", "2026-01-10", .applied, none⟩ []
        ⟨some "Acme", some "Engineer", some "2026-01-10", some "applied", none,
          ["user_id"]⟩
        ⟨some "Acme", some "Engineer", some "2026-01-10", some "applied",
          none⟩).2.2.2.1 _ (by decide)⟩

/-- The effective row condition of an engine update: `USING` together
with `WITH CHECK` on the patched row collapses to ownership, because a
patch never writes `user_id`. -/
theorem updateHit_eq (uid idStr : String) (p : UpdatePatch) (now : Nat)
    (r : Application) :
    (r.id == idStr && updateUsingPolicy uid r
      && updateWithCheckPolicy uid (applyPatch p now r))
    = (r.id == idStr && uid == r.user_id) := by
  have hc : updateWithCheckPolicy uid (applyPatch p now r) = (uid == r.user_id) := rfl
  rw [hc]
  simp only [updateUsingPolicy]
  cases h1 : r.id == idStr <;> cases h2 : uid == r.user_id <;> simp [h1, h2]

/-- C3: the row-level policy of the `applications` table permits
SELECT, INSERT, UPDATE (reading and committing) and DELETE of a row
exactly when the row's `user_id` equals the caller's verified identity;
hence the set of rows a caller can read through the engine — whatever
filter the application code supplies — is exactly the set it owns, and
the rows an update or delete touches are exactly the owned matching
rows. -/
theorem rls_policies_scope_to_owner
    (uid : String) (db : List Application) (f : Application → Bool)
    (row : Application) (idStr : String) (p : UpdatePatch) (now : Nat) :
    (∀ r, r ∈ engineSelect uid db f ↔ (r ∈ db ∧ uid = r.user_id ∧ f r = true))
    ∧ (∀ r, (∃ g, r ∈ engineSelect uid db g) ↔ (r ∈ db ∧ uid = r.user_id))
    ∧ ((∃ out, engineInsert uid db row = .ok out) ↔ uid = row.user_id)
    ∧ ((engineUpdateReturning uid db idStr p now).2
        = db.map fun r => if r.id == idStr && uid == r.user_id
            then applyPatch p now r else r)
    ∧ ((engineUpdateReturning uid db idStr p now).1
        = ((db.filter fun r => r.id == idStr && uid == r.user_id).map
            (applyPatch p now)).head?)
    ∧ ((engineDeleteReturning uid db idStr).1
        = db.filter fun r => r.id == idStr && uid == r.user_id)
    ∧ ((engineDeleteReturning uid db idStr).2
        = db.filter fun r => ! (r.id == idStr && uid == r.user_id)) := by
  have hsel : ∀ g : Application → Bool, ∀ r : Application,
      r ∈ engineSelect uid db g ↔ (r ∈ db ∧ uid = r.user_id ∧ g r = true) := by
    intro g r
    simp [engineSelect, List.mem_filter, selectPolicy, beq_iff_eq, and_assoc]
  refine ⟨hsel f, ?_, ?_, ?_, ?_, ?_, ?_⟩
  · intro r
    constructor
    · rintro ⟨g, hg⟩
      exact ⟨((hsel g r).mp hg).1, ((hsel g r).mp hg).2.1⟩
    · rintro ⟨h1, h2⟩
      exact ⟨fun _ => true, (hsel _ r).mpr ⟨h1, h2, rfl⟩⟩
  · by_cases h : insertPolicy uid row = true
    · simp only [engineInsert, h, if_true]
      constructor
      · intro _
        simpa [insertPolicy, beq_iff_eq] using h
      · intro _
        exact ⟨(row, db ++ [row]), rfl⟩
    · simp only [engineInsert, h, if_false]
      constructor
      · rintro ⟨out, hout⟩
        cases hout
      · intro he
        exact absurd (by simpa [insertPolicy, beq_iff_eq] using he) h
  · simp only [engineUpdateReturning, updateHit_eq]
  · simp only [engineUpdateReturning, updateHit_eq]
  · simp only [engineDeleteReturning, deletePolicy]
  · simp only [engineDeleteReturning, deletePolicy]

/-- A conditional rewrite map whose condition fails on every element of
the list is the identity. -/
theorem map_ite_id {l : List Application} {c : Application → Bool}
    {f : Application → Application} (h : ∀ x ∈ l, c x = false) :
    (l.map fun x => if c x then f x else x) = l := by
  induction l with
  | nil => rfl
  | cons a t ih =>
    simp only [List.map_cons, h a (by simp)]
    rw [ih fun x hx => h x (by simp [hx])]
    simp

/-- The PGRST116 message produced by `.single()` on a zero-row update
carries none of the mapping's keywords, so it maps to the generic
update failure. -/
theorem friendlyUpdateError_pgrst116 :
    friendlyUpdateError "JSON object requested, multiple (or no) rows returned"
      = "Unable to update application. Please try again." := by
  decide

/-- C2 (amended): for identities `A ≠ B` and a record `r` owned by `A` (present in
the store between `l1` and `l2`, its engine-generated id canonical and
unique): `getApplications` under `B` never lists `r`; and
`getApplicationById`, `updateApplication` and `deleteApplication` under
`B` with `r.id` produce exactly the result they produce when no record
with that id exists at all — no existence leakage and no distinct
permission-denied — while leaving the storage state unchanged.  The
shared outcome is null-data success for `getApplicationById` and the
not-found failure for `deleteApplication`; for `updateApplication` it is
the generic `Unable to update application. Please try again.` (the
zero-row `.single()` PGRST116 error after keyword mapping), not a
not-found result. -/
theorem cross_user_isolation
    (A B : String) (r : Application) (l1 l2 : List Application)
    (now : Nat) (p : UpdatePatch)
    (hOwner : r.user_id = A) (hNe : A ≠ B)
    (hPK : ∀ x ∈ l1 ++ l2, x.id ≠ r.id)
    (hTrim : jsTrim r.id = r.id) (hId : isUuid r.id = true) :
    (∀ l, (getApplications (some B) none (l1 ++ r :: l2)).res = .ok l → r ∉ l)
    ∧ (getApplicationById (some B) none r.id (l1 ++ r :: l2)).res
        = (getApplicationById (some B) none r.id (l1 ++ l2)).res
    ∧ (getApplicationById (some B) none r.id (l1 ++ r :: l2)).res = .ok none
    ∧ (updateApplication (some B) none now r.id p (l1 ++ r :: l2)).res
        = (updateApplication (some B) none now r.id p (l1 ++ l2)).res
    ∧ (updateApplication (some B) none now r.id p (l1 ++ r :: l2)).res
        = .fail "Unable to update application. Please try again."
    ∧ (updateApplication (some B) none now r.id p (l1 ++ r :: l2)).db
        = l1 ++ r :: l2
    ∧ (deleteApplication (some B) none r.id (l1 ++ r :: l2)).res
        = (deleteApplication (some B) none r.id (l1 ++ l2)).res
    ∧ (deleteApplication (some B) none r.id (l1 ++ r :: l2)).res
        = .fail ("Application not found or access denied: " ++ r.id)
    ∧ (deleteApplication (some B) none r.id (l1 ++ r :: l2)).db
        = l1 ++ r :: l2 := by
  have hBA : (B == r.user_id) = false := by
    rw [hOwner]
    simp only [beq_eq_false_iff_ne, ne_eq]
    exact fun h => hNe h.symm
  have hne0 : (r.id == "") = false := by
    cases h : r.id == "" with
    | false => rfl
    | true =>
      have h2 : r.id = "" := by simpa using h
      rw [h2] at hId
      exact absurd hId (by decide)
  have hmem : ∀ x, x ∈ l1 ++ r :: l2 → x = r ∨ x ∈ l1 ++ l2 := by
    intro x hx
    simp only [List.mem_append, List.mem_cons] at hx ⊢
    tauto
  have hmem2 : ∀ x, x ∈ l1 ++ l2 → x = r ∨ x ∈ l1 ++ l2 := fun x hx => Or.inr hx
  have hidx : ∀ x ∈ l1 ++ l2, (x.id == r.id) = false := by
    intro x hx
    simpa using hPK x hx
  -- the three by-id row conditions fail on every row of either state
  have hqsel : ∀ x, (x = r ∨ x ∈ l1 ++ l2) →
      (selectPolicy B x && (x.id == r.id)) = false := by
    rintro x (rfl | hx)
    · simp [selectPolicy, hBA]
    · simp [hidx x hx]
  have hqupd : ∀ x, (x = r ∨ x ∈ l1 ++ l2) →
      (x.id == r.id && updateUsingPolicy B x
        && updateWithCheckPolicy B (applyPatch p now x)) = false := by
    rintro x (rfl | hx) <;> rw [updateHit_eq]
    · simp [hBA]
    · simp [hidx x hx]
  have hqdel : ∀ x, (x = r ∨ x ∈ l1 ++ l2) →
      (x.id == r.id && deletePolicy B x) = false := by
    rintro x (rfl | hx)
    · simp [deletePolicy, hBA]
    · simp [hidx x hx]
  refine ⟨?_, ?_, ?_, ?_, ?_, ?_, ?_, ?_, ?_⟩
  · -- list never includes r
    intro l hl
    have hga : (getApplications (some B) none (l1 ++ r :: l2)).res
        = .ok (sortByCreatedAtDesc
            (engineSelect B (l1 ++ r :: l2) fun _ => true)) := rfl
    rw [hga] at hl
    cases hl
    intro hr
    rw [mem_sortByCreatedAtDesc] at hr
    have h2 := (List.mem_filter.mp hr).2
    simp [selectPolicy, hBA] at h2
  · -- getById: same result as with the record absent
    have e1 : engineSelect B (l1 ++ r :: l2) (fun x => x.id == r.id) = [] :=
      List.filter_eq_nil_iff.mpr fun x hx => by simp [hqsel x (hmem x hx)]
    have e2 : engineSelect B (l1 ++ l2) (fun x => x.id == r.id) = [] :=
      List.filter_eq_nil_iff.mpr fun x hx => by simp [hqsel x (hmem2 x hx)]
    simp [getApplicationById, hTrim, hId, hne0, e1, e2]
  · have e1 : engineSelect B (l1 ++ r :: l2) (fun x => x.id == r.id) = [] :=
      List.filter_eq_nil_iff.mpr fun x hx => by simp [hqsel x (hmem x hx)]
    simp [getApplicationById, hTrim, hId, hne0, e1]
  · -- update: same result as with the record absent
    have e1 : (engineUpdateReturning B (l1 ++ r :: l2) r.id p now).1 = none := by
      simp only [engineUpdateReturning]
      rw [List.filter_eq_nil_iff.mpr fun x hx => by simp [hqupd x (hmem x hx)]]
      rfl
    have e2 : (engineUpdateReturning B (l1 ++ l2) r.id p now).1 = none := by
      simp only [engineUpdateReturning]
      rw [List.filter_eq_nil_iff.mpr fun x hx => by simp [hqupd x (hmem2 x hx)]]
      rfl
    simp only [updateApplication, hTrim, hId, hne0, Bool.not_true,
      Bool.or_false, Bool.false_eq_true, if_false]
    rcases h1 : engineUpdateReturning B (l1 ++ r :: l2) r.id p now with ⟨o1, d1⟩
    rcases h2 : engineUpdateReturning B (l1 ++ l2) r.id p now with ⟨o2, d2⟩
    rw [h1] at e1
    rw [h2] at e2
    cases e1
    cases e2
    rfl
  · have e1 : (engineUpdateReturning B (l1 ++ r :: l2) r.id p now).1 = none := by
      simp only [engineUpdateReturning]
      rw [List.filter_eq_nil_iff.mpr fun x hx => by simp [hqupd x (hmem x hx)]]
      rfl
    simp only [updateApplication, hTrim, hId, hne0, Bool.not_true,
      Bool.or_false, Bool.false_eq_true, if_false]
    rcases h1 : engineUpdateReturning B (l1 ++ r :: l2) r.id p now with ⟨o1, d1⟩
    rw [h1] at e1
    cases e1
    rw [friendlyUpdateError_pgrst116]
  · -- update leaves the state unchanged
    have e1 : (engineUpdateReturning B (l1 ++ r :: l2) r.id p now).1 = none := by
      simp only [engineUpdateReturning]
      rw [List.filter_eq_nil_iff.mpr fun x hx => by simp [hqupd x (hmem x hx)]]
      rfl
    have e2 : (engineUpdateReturning B (l1 ++ r :: l2) r.id p now).2
        = l1 ++ r :: l2 := by
      simp only [engineUpdateReturning]
      exact map_ite_id fun x hx => hqupd x (hmem x hx)
    simp only [updateApplication, hTrim, hId, hne0, Bool.not_true,
      Bool.or_false, Bool.false_eq_true, if_false]
    rcases h1 : engineUpdateReturning B (l1 ++ r :: l2) r.id p now with ⟨o1, d1⟩
    rw [h1] at e1 e2
    cases e1
    cases e2
    rfl
  · -- delete: same result as with the record absent
    have e1 : (engineDeleteReturning B (l1 ++ r :: l2) r.id).1 = [] := by
      simp only [engineDeleteReturning]
      exact List.filter_eq_nil_iff.mpr fun x hx => by simp [hqdel x (hmem x hx)]
    have e2 : (engineDeleteReturning B (l1 ++ l2) r.id).1 = [] := by
      simp only [engineDeleteReturning]
      exact List.filter_eq_nil_iff.mpr fun x hx => by simp [hqdel x (hmem2 x hx)]
    simp [deleteApplication, hTrim, hId, hne0, e1, e2]
  · have e1 : (engineDeleteReturning B (l1 ++ r :: l2) r.id).1 = [] := by
      simp only [engineDeleteReturning]
      exact List.filter_eq_nil_iff.mpr fun x hx => by simp [hqdel x (hmem x hx)]
    simp [deleteApplication, hTrim, hId, hne0, e1]
  · -- delete leaves the state unchanged
    have e1 : (engineDeleteReturning B (l1 ++ r :: l2) r.id).1 = [] := by
      simp only [engineDeleteReturning]
      exact List.filter_eq_nil_iff.mpr fun x hx => by simp [hqdel x (hmem x hx)]
    have e2 : (engineDeleteReturning B (l1 ++ r :: l2) r.id).2
        = l1 ++ r :: l2 := by
      simp only [engineDeleteReturning]
      exact List.filter_eq_self.mpr fun x hx => by simp [hqdel x (hmem x hx)]
    simp [deleteApplication, hTrim, hId, hne0, e1, e2]

/-- Closed witness for C2: Bob's calls against Alice's concrete record
behave exactly as against an empty store. -/
theorem cross_user_isolation_witness :
    ("alice" : String) ≠ "bob"
    ∧ (getApplicationById (some "bob") none
        "123e4567-e89b-12d3-a456-426614174000"
        [⟨"123e4567-e89b-12d3-a456-426614174000", "alice", "Acme", "Engineer",
          .applied, "2026-01-10", none, 3, 3⟩]).res = .ok none
    ∧ (deleteApplication (some "bob") none
        "123e4567-e89b-12d3-a456-426614174000"
        [⟨"123e4567-e89b-12d3-a456-426614174000", "alice", "Acme", "Engineer",
          .applied, "2026-01-10", none, 3, 3⟩]).db
      = [⟨"123e4567-e89b-12d3-a456-426614174000", "alice", "Acme", "Engineer",
          .applied, "2026-01-10", none, 3, 3⟩] := by
  have h := cross_user_isolation "alice" "bob"
    ⟨"123e4567-e89b-12d3-a456-426614174000", "alice", "Acme", "Engineer",
      .applied, "2026-01-10", none, 3, 3⟩ [] [] 0 ⟨none, none, none, none, none⟩
    rfl (by decide) (by intro x hx; cases hx) (by decide) (by decide)
  exact ⟨by decide, h.2.2.1, h.2.2.2.2.2.2.2.2⟩

/-- C2 as stated is false on the update leg: Bob updating Alice's
record does not get a not-found result — the zero-row `.single()`
PGRST116 engine error is keyword-mapped to the generic
`Unable to update application. Please try again.` (which the PATCH
route relays as a 500, not a 404), though it is still exactly the
outcome of a nonexistent id. -/
theorem cross_user_update_not_found_counterexample :
    (updateApplication (some "bob") none 9
        "123e4567-e89b-12d3-a456-426614174000"
        ⟨none, none, none, some .interviewing, none⟩
        [⟨"123e4567-e89b-12d3-a456-426614174000", "alice", "Acme", "Engineer",
          .applied, "2026-01-10", none, 3, 3⟩]).res
      = .fail "Unable to update application. Please try again."
    ∧ strContains "Unable to update application. Please try again."
        "not found" = false
    ∧ (routePATCH (some "bob") none 9 "123e4567-e89b-12d3-a456-426614174000"
        ⟨none, none, none, some "interviewing", none, []⟩
        [⟨"123e4567-e89b-12d3-a456-426614174000", "alice", "Acme", "Engineer",
          .applied, "2026-01-10", none, 3, 3⟩]).resp
      = .err 500 "Unable to update application. Please try again." := by
  refine ⟨by decide, by decide, by decide⟩

/-- Closed witness for C4: a concrete unauthenticated list call fails
uniformly with the state untouched. -/
theorem unauthenticated_uniform_failure_witness :
    getApplications none none
        [⟨"123e4567-e89b-12d3-a456-426614174000", "alice", "Acme", "Engineer",
          .applied, "2026-01-10", none, 3, 3⟩]
      = ⟨.fail "User not authenticated",
          [⟨"123e4567-e89b-12d3-a456-426614174000", "alice", "Acme", "Engineer",
            .applied, "2026-01-10", none, 3, 3⟩], []⟩ :=
  (unauthenticated_uniform_failure none
    [⟨"123e4567-e89b-12d3-a456-426614174000", "alice", "Acme", "Engineer",
      .applied, "2026-01-10", none, 3, 3⟩]
    "123e4567-e89b-12d3-a456-426614174000" "g" 0
    ⟨"Acme", "Engineer", "2026-01-10", .applied, none⟩
    ⟨none, none, none, none, none⟩).1

/-- Closed witness for C3: the engine accepts a concrete insert exactly
because the inserted row is owned by the caller. -/
theorem rls_policies_scope_to_owner_witness :
    ∃ out, engineInsert "alice" []
        ⟨"123e4567-e89b-12d3-a456-426614174000", "alice", "Acme", "Engineer",
          .applied, "2026-01-10", none, 3, 3⟩ = .ok out :=
  ((rls_policies_scope_to_owner "alice" [] (fun _ => true)
    ⟨"123e4567-e89b-12d3-a456-426614174000", "alice", "Acme", "Engineer",
      .applied, "2026-01-10", none, 3, 3⟩
    "123e4567-e89b-12d3-a456-426614174000"
    ⟨none, none, none, none, none⟩ 3).2.2.1).mpr rfl

/-- A string passing the UUID pattern is not empty. -/
theorem uuid_ne_empty {s : String} (h : isUuid s = true) : (s == "") = false := by
  cases he : s == "" with
  | false => rfl
  | true =>
    have h2 : s = "" := by simpa using he
    rw [h2] at h
    exact absurd h (by decide)

/-- C5 (code bug, evaluated at the failing input): an authenticated
`updateApplication` on a well-formed id owned by nobody reachable — the
record is nonexistent or owned by another identity — does NOT return the
not-found outcome the source intends: `.select().single()` on the
zero-row update yields the PGRST116 engine error, whose keyword mapping
produces the generic `Unable to update application. Please try again.`,
and PATCH relays it as a 500; the source's own
`if (!updatedApplication)` branch (`Application not found or access
denied`) and the route's 404 mapping for it are unreachable. -/
theorem update_not_owned_returns_storage_failure :
    (updateApplication (some "alice") none 9
        "00000000-0000-4000-8000-000000000001"
        ⟨none, none, none, some .interviewing, none⟩ []).res
      = .fail "Unable to update application. Please try again."
    ∧ (updateApplication (some "alice") none 9
        "00000000-0000-4000-8000-000000000001"
        ⟨none, none, none, some .interviewing, none⟩ []).db = []
    ∧ (routePATCH (some "alice") none 9 "00000000-0000-4000-8000-000000000001"
        ⟨none, none, none, some "interviewing", none, []⟩ []).resp
      = .err 500 "Unable to update application. Please try again." := by
  refine ⟨by decide, by decide, by decide⟩

/-- C8: an authenticated PATCH whose JSON body has no keys is rejected
with 400 `No fields to update` before validation and before any storage
query, leaving the storage state unchanged. -/
theorem patch_empty_body_rejected
    (uid : String) (engineErr : Option String) (db : List Application)
    (now : Nat) (id : String) (body : RawUpdateBody)
    (hId : id ≠ "") (hEmpty : body.keyCount = 0) :
    routePATCH (some uid) engineErr now id body db
      = ⟨.err 400 "No fields to update", db, []⟩ := by
  have hb1 : (id == "") = false := beq_eq_false_iff_ne.mpr hId
  have hb2 : (body.keyCount == 0) = true := by simp [hEmpty]
  simp [routePATCH, hb1, hb2]

/-- Closed witness for C8 on a concrete keyless body. -/
theorem patch_empty_body_rejected_witness :
    (RawUpdateBody.keyCount ⟨none, none, none, none, none, []⟩ = 0)
    ∧ routePATCH (some "alice") none 7
        "123e4567-e89b-12d3-a456-426614174000"
        ⟨none, none, none, none, none, []⟩
        [⟨"123e4567-e89b-12d3-a456-426614174000", "alice", "Acme", "Engineer",
          .applied, "2026-01-10", none, 3, 3⟩]
      = ⟨.err 400 "No fields to update",
          [⟨"123e4567-e89b-12d3-a456-426614174000", "alice", "Acme", "Engineer",
            .applied, "2026-01-10", none, 3, 3⟩], []⟩ :=
  ⟨by decide,
    patch_empty_body_rejected "alice" none
      [⟨"123e4567-e89b-12d3-a456-426614174000", "alice", "Acme", "Engineer",
        .applied, "2026-01-10", none, 3, 3⟩] 7
      "123e4567-e89b-12d3-a456-426614174000"
      ⟨none, none, none, none, none, []⟩ (by decide) (by decide)⟩

/-- C6 as stated is false: a payload containing an owner key is NOT
rejected — `z.object` strips unknown keys, so a PATCH whose body smuggles
a `user_id` key succeeds (HTTP 200) with the smuggled key silently
dropped and the stored owner untouched. -/
theorem update_owner_key_not_rejected_counterexample :
    (routePATCH (some "alice") none 7 "123e4567-e89b-12d3-a456-426614174000"
        ⟨none, none, none, some "interviewing", none, ["user_id"]⟩
        [⟨"123e4567-e89b-12d3-a456-426614174000", "alice", "Acme", "Engineer",
          .applied, "2026-01-10", none, 3, 3⟩]).resp
      = .ok 200 ⟨"123e4567-e89b-12d3-a456-426614174000", "alice", "Acme",
          "Engineer", .interviewing, "2026-01-10", none, 3, 7⟩ := by
  decide

/-- C6 (amended): only the supplied fields among `company_name`,
`position_title`, `application_date`, `status`, `notes` change; every
unsupplied field — `created_at` included — keeps its prior value; `id`
and `user_id` are immutable; and an `id`/owner key in the payload is
silently stripped by validation (never applied), rather than the request
being rejected. -/
theorem update_frame_and_owner_immutable
    (uid : String) (engineErr : Option String) (db : List Application)
    (id : String) (now : Nat) (body : RawUpdateBody)
    (extraKeys : List String) :
    (updateZodParse { body with extra := extraKeys } = updateZodParse body)
    ∧ (∀ p : UpdatePatch, ∀ x : Application,
        (applyPatch p now x).id = x.id
        ∧ (applyPatch p now x).user_id = x.user_id
        ∧ (applyPatch p now x).created_at = x.created_at
        ∧ (p.company_name = none →
            (applyPatch p now x).company_name = x.company_name)
        ∧ (p.position_title = none →
            (applyPatch p now x).position_title = x.position_title)
        ∧ (p.application_date = none →
            (applyPatch p now x).application_date = x.application_date)
        ∧ (p.status = none → (applyPatch p now x).status = x.status)
        ∧ (p.notes = none → (applyPatch p now x).notes = x.notes)
        ∧ (∀ s, p.company_name = some s → (applyPatch p now x).company_name = s)
        ∧ (∀ s, p.position_title = some s →
            (applyPatch p now x).position_title = s)
        ∧ (∀ s, p.application_date = some s →
            (applyPatch p now x).application_date = s)
        ∧ (∀ s, p.status = some s → (applyPatch p now x).status = s)
        ∧ (∀ s, p.notes = some s → (applyPatch p now x).notes = s))
    ∧ (∀ p : UpdatePatch, ∀ idStr : String,
        ∀ x ∈ (engineUpdateReturning uid db idStr p now).2,
          x ∈ db ∨ ∃ y ∈ db, x = applyPatch p now y)
    ∧ (∀ p : UpdatePatch,
        (updateApplication (some uid) engineErr now id p db).db = db
        ∨ (updateApplication (some uid) engineErr now id p db).db
            = (engineUpdateReturning uid db (jsTrim id) p now).2) := by
  refine ⟨?_, ?_, ?_, ?_⟩
  · simp [updateZodParse]
  · intro p x
    cases p with
    | mk cn pt ad st nt =>
      refine ⟨rfl, rfl, rfl, ?_, ?_, ?_, ?_, ?_, ?_, ?_, ?_, ?_, ?_⟩ <;>
        first
          | (intro h; subst h; rfl)
          | (intro s h; subst h; rfl)
  · intro p idStr x hx
    simp only [engineUpdateReturning] at hx
    rcases List.mem_map.mp hx with ⟨y, hy, hxy⟩
    by_cases hcond : (y.id == idStr && updateUsingPolicy uid y
        && updateWithCheckPolicy uid (applyPatch p now y)) = true
    · rw [if_pos hcond] at hxy
      exact Or.inr ⟨y, hy, hxy.symm⟩
    · rw [if_neg hcond] at hxy
      exact Or.inl (hxy ▸ hy)
  · intro p
    by_cases hg : (jsTrim id == "" || ! isUuid (jsTrim id)) = true
    · left
      simp [updateApplication, hg]
    · cases engineErr with
      | some msg =>
        left
        simp [updateApplication, hg]
      | none =>
        right
        simp only [updateApplication, hg, Bool.false_eq_true, if_false]
        rcases h1 : engineUpdateReturning uid db (jsTrim id) p now with ⟨o, d⟩
        cases o <;> simp

/-- Closed witness for C6 (amended): a concrete patch that sets only the
status leaves `user_id` and the unsupplied fields of the target row
untouched. -/
theorem update_frame_and_owner_immutable_witness :
    ((⟨none, none, none, some AppStatus.interviewing, none⟩ : UpdatePatch).notes
        = none)
    ∧ (applyPatch ⟨none, none, none, some .interviewing, none⟩ 7
        ⟨"123e4567-e89b-12d3-a456-426614174000", "alice", "Acme", "Engineer",
          .applied, "2026-01-10", none, 3, 3⟩).user_id = "alice"
    ∧ (applyPatch ⟨none, none, none, some .interviewing, none⟩ 7
        ⟨"123e4567-e89b-12d3-a456-426614174000", "alice", "Acme", "Engineer",
          .applied, "2026-01-10", none, 3, 3⟩).notes = none := by
  have h := (update_frame_and_owner_immutable "alice" none [] "" 7
    ⟨none, none, none, none, none, []⟩ []).2.1
    ⟨none, none, none, some .interviewing, none⟩
    ⟨"123e4567-e89b-12d3-a456-426614174000", "alice", "Acme", "Engineer",
      .applied, "2026-01-10", none, 3, 3⟩
  exact ⟨rfl, h.2.1, h.2.2.2.2.2.2.2.1 rfl⟩

/-- C7 (code bug): the `notes` transform `val && val.trim() === '' ?
null : val` skips the empty string, because `''` is falsy in JavaScript:
a whitespace-only string like `" "` becomes null, but `""` passes
through unchanged and is persisted as an empty-string notes value, both
through the schema and through a direct `createApplication` call. -/
theorem empty_notes_not_normalized :
    zodNotes (some "") = .ok (some (some ""))
    ∧ zodNotes (some " ") = .ok (some none)
    ∧ (createApplication (some "alice") none
        "123e4567-e89b-12d3-a456-426614174000" 3
        ⟨"Acme", "Engineer", "2026-01-10", .applied, some ""⟩ []).db
      = [⟨"123e4567-e89b-12d3-a456-426614174000", "alice", "Acme", "Engineer",
          .applied, "2026-01-10", some "", 3, 3⟩]
    ∧ (routePOST (some "alice") none "123e4567-e89b-12d3-a456-426614174000" 3
        ⟨some "Acme", some "Engineer", some "2026-01-10", some "applied",
          some "", []⟩ []).db
      = [⟨"123e4567-e89b-12d3-a456-426614174000", "alice", "Acme", "Engineer",
          .applied, "2026-01-10", some "", 3, 3⟩] := by
  refine ⟨by decide, by decide, by decide, by decide⟩

/-- C9 as stated is false: `getApplicationById` interpolates the raw
engine error message verbatim into the error string it returns to the
caller (`Failed to fetch application: <raw message>`). -/
theorem raw_engine_error_relayed_counterexample :
    (getApplicationById (some "alice")
        (some "db engine failure at host 10.0.0.5")
        "123e4567-e89b-12d3-a456-426614174000" []).res
      = .fail "Failed to fetch application: db engine failure at host 10.0.0.5"
    ∧ strContains
        "Failed to fetch application: db engine failure at host 10.0.0.5"
        "db engine failure at host 10.0.0.5" = true := by
  refine ⟨by decide, by decide⟩

/-- C9 (amended): `getApplications`, `createApplication`,
`updateApplication` and `deleteApplication` map a storage-engine error
to one of a fixed set of user-friendly messages selected only by
keyword, never embedding the raw text; but `getApplicationById` returns
`Failed to fetch application: <raw engine message>`, relaying the
engine text verbatim to the caller. -/
theorem engine_errors_sanitized_except_fetch
    (uid msg genId id : String) (now : Nat) (input : CreateInput)
    (p : UpdatePatch) (db : List Application)
    (hId : isUuid (jsTrim id) = true) :
    (createApplication (some uid) (some msg) genId now input db).res
        = .fail (friendlyCreateError msg)
    ∧ (friendlyCreateError msg
          = "Network error. Please check your internet connection."
        ∨ friendlyCreateError msg = "Request timed out. Please try again."
        ∨ friendlyCreateError msg = "Invalid data. Please check your input."
        ∨ friendlyCreateError msg
          = "Unable to create application. Please try again.")
    ∧ (updateApplication (some uid) (some msg) now id p db).res
        = .fail (friendlyUpdateError msg)
    ∧ (friendlyUpdateError msg
          = "Network error. Please check your internet connection."
        ∨ friendlyUpdateError msg = "Request timed out. Please try again."
        ∨ friendlyUpdateError msg = "Invalid data. Please check your input."
        ∨ friendlyUpdateError msg
          = "Unable to update application. Please try again.")
    ∧ (deleteApplication (some uid) (some msg) id db).res
        = .fail (friendlyDeleteError msg)
    ∧ (friendlyDeleteError msg
          = "Network error. Please check your internet connection."
        ∨ friendlyDeleteError msg = "Request timed out. Please try again."
        ∨ friendlyDeleteError msg
          = "Unable to delete application. Please try again.")
    ∧ (getApplications (some uid) (some msg) db).res
        = .fail (friendlyListError msg)
    ∧ (friendlyListError msg
          = "Network error. Please check your internet connection."
        ∨ friendlyListError msg = "Request timed out. Please try again."
        ∨ friendlyListError msg
          = "Unable to load applications. Please try again.")
    ∧ (getApplicationById (some uid) (some msg) id db).res
        = .fail ("Failed to fetch application: " ++ msg) := by
  have hne0 : (jsTrim id == "") = false := uuid_ne_empty hId
  refine ⟨rfl, ?_, ?_, ?_, ?_, ?_, rfl, ?_, ?_⟩
  · simp only [friendlyCreateError]
    split
    · exact Or.inl rfl
    · split
      · exact Or.inr (Or.inl rfl)
      · split
        · exact Or.inr (Or.inr (Or.inl rfl))
        · exact Or.inr (Or.inr (Or.inr rfl))
  · simp [updateApplication, hId, hne0]
  · simp only [friendlyUpdateError]
    split
    · exact Or.inl rfl
    · split
      · exact Or.inr (Or.inl rfl)
      · split
        · exact Or.inr (Or.inr (Or.inl rfl))
        · exact Or.inr (Or.inr (Or.inr rfl))
  · simp [deleteApplication, hId, hne0]
  · simp only [friendlyDeleteError]
    split
    · exact Or.inl rfl
    · split
      · exact Or.inr (Or.inl rfl)
      · exact Or.inr (Or.inr rfl)
  · simp only [friendlyListError]
    split
    · exact Or.inl rfl
    · split
      · exact Or.inr (Or.inl rfl)
      · exact Or.inr (Or.inr rfl)
  · simp [getApplicationById, hId, hne0]

/-- Closed witness for C9 (amended): a concrete engine failure yields
the fixed generic messages from `createApplication` and
`getApplications`, and the verbatim relay from `getApplicationById`. -/
theorem engine_errors_sanitized_except_fetch_witness :
    (isUuid (jsTrim "123e4567-e89b-12d3-a456-426614174000") = true)
    ∧ (createApplication (some "alice") (some "unexpected engine fault") "g" 3
        ⟨"Acme", "Engineer", "2026-01-10", .applied, none⟩ []).res
      = .fail (friendlyCreateError "unexpected engine fault")
    ∧ (getApplications (some "alice") (some "unexpected engine fault") []).res
      = .fail (friendlyListError "unexpected engine fault")
    ∧ (getApplicationById (some "alice") (some "unexpected engine fault")
        "123e4567-e89b-12d3-a456-426614174000" []).res
      = .fail ("Failed to fetch application: " ++ "unexpected engine fault") := by
  have h := engine_errors_sanitized_except_fetch "alice"
    "unexpected engine fault" "g" "123e4567-e89b-12d3-a456-426614174000" 3
    ⟨"Acme", "Engineer", "2026-01-10", .applied, none⟩
    ⟨none, none, none, none, none⟩ [] (by decide)
  exact ⟨by decide, h.1, h.2.2.2.2.2.2.1, h.2.2.2.2.2.2.2.2⟩

/-- Closed witness for C10 at a concrete malformed id. -/
theorem invalid_id_rejected_before_storage_witness :
    isUuid (jsTrim "not-a-uuid") = false
    ∧ getApplicationById (some "alice") none "not-a-uuid" []
        = ⟨.fail "Invalid application ID", [], []⟩ :=
  ⟨by decide,
    ((invalid_id_rejected_before_storage "alice" none [] "not-a-uuid" 0
      ⟨none, none, none, none, none⟩).1 (by decide)).1⟩

end JAT
